import Mathlib

/-!
Shallow embedding of the mock persistence / rate-limiting / content-generation
service layer of the content-authoring application (src/services/api.ts and
src/lib/utils.ts).  Times are modelled as integer millisecond timestamps;
the external generation backend is modelled by an explicit outcome parameter;
browser local storage is modelled by explicit state passing.

The repository carries two variants of the service file: variant A (the first
document in src/services/api.ts) and variant B (the second document, which
takes its rate limiter from src/lib/utils.ts).  Definitions suffixed `Api`
embed variant A helpers, definitions suffixed `Utils` embed the lib/utils
helpers used by variant B.
-/

namespace ContentForge

/-- RateLimitInfo from src/types: limit, current, remaining, resetTime. -/
structure RateLimitInfo where
  limit : Int
  current : Int
  remaining : Int
  resetTime : Int
deriving Repr, DecidableEq

/-- User from src/types: optional id, email, optional name, optional createdAt,
optional role ("user" or "admin"). -/
structure User where
  id : Option String
  email : String
  name : Option String
  createdAt : Option Int
  role : Option String
deriving Repr, DecidableEq

/-- Post from src/types (variant with publishDate and readTime). -/
structure Post where
  id : String
  title : String
  content : String
  topic : String
  style : String
  isPublished : Bool
  publishDate : Option Int
  readTime : Option Int
  createdAt : Int
  updatedAt : Int
  userId : String
deriving Repr, DecidableEq

/-- SavePostPayload from src/types: optional id, required text fields,
optional isPublished and publishDate. -/
structure SavePostPayload where
  id : Option String
  title : String
  content : String
  topic : String
  style : String
  isPublished : Option Bool
  publishDate : Option Int
deriving Repr, DecidableEq

/-- GenerateContentPayload from src/types. -/
structure GenerateContentPayload where
  topic : String
  style : String
deriving Repr, DecidableEq

/-- AdminStats from src/types. -/
structure AdminStats where
  totalUsers : Nat
  totalPosts : Nat
  publishedPosts : Nat
  scheduledPosts : Nat
deriving Repr, DecidableEq

/-- The error taxonomy of the service layer, by thrown message:
"User not authenticated", "Rate limit exceeded..." (carrying the reset time),
"OpenAI API key is not configured", "Post not found",
"Unauthorized: Admin access required". -/
inductive ApiError where
  | notAuthenticated
  | rateLimitExceeded (resetTime : Int)
  | notConfigured
  | notFound
  | unauthorized
deriving Repr, DecidableEq

/-- Outcome of the external text-generation call: either the fetch/parse
fails (network error, non-ok response, malformed payload) or it yields the
generated text. -/
inductive BackendOutcome where
  | failure
  | success (text : String)
deriving Repr, DecidableEq

/-- RATE_LIMIT_WINDOW = 60 * 60 * 1000 (one hour in ms), api.ts variant A. -/
def RATE_LIMIT_WINDOW : Int := 60 * 60 * 1000

/-- MAX_REQUESTS_PER_HOUR = 20, api.ts variant A. -/
def MAX_REQUESTS_PER_HOUR : Int := 20

/-- getUserRateLimit of api.ts variant A, restricted to one user's stored
entry: lazily initializes an absent entry, resets the window when
now > resetTime without charging, and persists what it returns.
Returns (result, stored entry). -/
def getUserRateLimitApi (now : Int) (entry : Option RateLimitInfo) :
    RateLimitInfo × Option RateLimitInfo :=
  match entry with
  | none =>
    let newLimit : RateLimitInfo :=
      { limit := MAX_REQUESTS_PER_HOUR, current := 0,
        remaining := MAX_REQUESTS_PER_HOUR, resetTime := now + RATE_LIMIT_WINDOW }
    (newLimit, some newLimit)
  | some limitData =>
    if now > limitData.resetTime then
      let limitData2 : RateLimitInfo :=
        { limitData with
            current := 0,
            remaining := MAX_REQUESTS_PER_HOUR,
            resetTime := now + RATE_LIMIT_WINDOW }
      (limitData2, some limitData2)
    else
      (limitData, some limitData)

/-- updateUserRateLimit of api.ts variant A (the consume step), restricted to
one user's stored entry.  An absent entry delegates to getUserRateLimit
(initialization, no increment); an expired window resets to current = 1,
remaining = MAX_REQUESTS_PER_HOUR - 1; otherwise current is incremented and
remaining recomputed as max 0 (limit - current). -/
def updateUserRateLimitApi (now : Int) (entry : Option RateLimitInfo) :
    RateLimitInfo × Option RateLimitInfo :=
  match entry with
  | none => getUserRateLimitApi now none
  | some limitData =>
    if now > limitData.resetTime then
      let limitData2 : RateLimitInfo :=
        { limitData with
            current := 1,
            remaining := MAX_REQUESTS_PER_HOUR - 1,
            resetTime := now + RATE_LIMIT_WINDOW }
      (limitData2, some limitData2)
    else
      let limitData2 : RateLimitInfo :=
        { limitData with
            current := limitData.current + 1,
            remaining := max 0 (limitData.limit - (limitData.current + 1)) }
      (limitData2, some limitData2)

/-- getUserRateLimit of src/lib/utils.ts: lazily initializes an absent entry
with limit = 10 and a one-hour window; no reset logic of its own. -/
def getUserRateLimitUtils (now : Int) (entry : Option RateLimitInfo) : RateLimitInfo :=
  match entry with
  | none =>
    { limit := 10, current := 0, remaining := 10, resetTime := now + 60 * 60 * 1000 }
  | some rateLimit => rateLimit

/-- updateUserRateLimit of src/lib/utils.ts: reads (initializing if absent),
resets the counters when now is past resetTime, then always increments
current and recomputes remaining = max 0 (limit - current).
Returns (result, stored entry). -/
def updateUserRateLimitUtils (now : Int) (entry : Option RateLimitInfo) :
    RateLimitInfo × Option RateLimitInfo :=
  let rateLimit := getUserRateLimitUtils now entry
  let rateLimit1 :=
    if now > rateLimit.resetTime then
      { rateLimit with
          current := 0,
          remaining := rateLimit.limit,
          resetTime := now + 60 * 60 * 1000 }
    else rateLimit
  let rateLimit2 :=
    { rateLimit1 with
        current := rateLimit1.current + 1,
        remaining := max 0 (rateLimit1.limit - (rateLimit1.current + 1)) }
  (rateLimit2, some rateLimit2)

/-- The type of a consume function: the two updateUserRateLimit variants. -/
abbrev Consume := Int → Option RateLimitInfo → RateLimitInfo × Option RateLimitInfo

/-- The mutable service state touched by the post operations: the posts table
and the calling user's rate-limit entry. -/
structure ApiState where
  posts : List Post
  rl : Option RateLimitInfo
deriving Repr, DecidableEq

/-- Entry pushed onto the error_logs table by apiErrorHandler (variant A). -/
structure ErrorLogEntry where
  timestamp : Int
  error : String
  stack : Option String
deriving Repr, DecidableEq

/-- The error-log append performed by apiErrorHandler on every caught
failure: parse the stored list, push the new entry, store it back.
There is no size check. -/
def appendErrorLog (errorLogs : List ErrorLogEntry) (entry : ErrorLogEntry) :
    List ErrorLogEntry :=
  errorLogs ++ [entry]

/-- Entry pushed onto the db_logs table by dbLogger.logOperation. -/
structure DbLogEntry where
  timestamp : Int
  operation : String
  details : String
  user : String
deriving Repr, DecidableEq

/-- dbLogger.logOperation: push the entry, then if the list length exceeds
100, shift (drop the oldest entry). -/
def logOperation (logs : List DbLogEntry) (entry : DbLogEntry) : List DbLogEntry :=
  let logs1 := logs ++ [entry]
  if logs1.length > 100 then logs1.tail else logs1

/-- The field merge performed by savePost on the record matching payload.id:
text fields always replaced; isPublished replaced only when present in the
payload (x ?? post.isPublished); publishDate taken from the payload
unconditionally; updatedAt refreshed.  Identical in variants A and B. -/
def applySaveUpdate (payload : SavePostPayload) (now : Int) (post : Post) : Post :=
  { post with
      title := payload.title,
      content := payload.content,
      topic := payload.topic,
      style := payload.style,
      isPublished := payload.isPublished.getD post.isPublished,
      publishDate := payload.publishDate,
      updatedAt := now }

/-- contentAPI.savePost (identical in variants A and B apart from the
consume function used): authenticate, consume, reject when remaining would
be spent, then update-by-map or create-and-append.  The update branch
returns the result of find? on the updated list cast from a possibly absent
value, so the success payload is an Option Post exactly as the JS value may
be undefined. -/
def savePost (consume : Consume) (user : Option User) (now : Int) (freshId : String)
    (payload : SavePostPayload) (st : ApiState) :
    Except ApiError (Option Post) × ApiState :=
  match user with
  | none => (.error .notAuthenticated, st)
  | some u =>
    let res := consume now st.rl
    let st1 : ApiState := { st with rl := res.2 }
    if res.1.remaining ≤ 0 then
      (.error (.rateLimitExceeded res.1.resetTime), st1)
    else
      match payload.id with
      | some pid =>
        let updatedPosts := st1.posts.map (fun post =>
          if post.id == pid then applySaveUpdate payload now post else post)
        (.ok (updatedPosts.find? (fun post => post.id == pid)),
         { st1 with posts := updatedPosts })
      | none =>
        let newPost : Post :=
          { id := freshId, title := payload.title, content := payload.content,
            topic := payload.topic, style := payload.style,
            isPublished := payload.isPublished.getD false,
            publishDate := payload.publishDate,
            readTime := none,
            createdAt := now, updatedAt := now,
            userId := u.id.getD "unknown" }
        (.ok (some newPost), { st1 with posts := st1.posts ++ [newPost] })

/-- contentAPI.deletePost (identical in variants A and B apart from the
consume function): authenticate, consume, reject when exhausted, filter the
matching id out, and report NotFound when nothing was removed (length
comparison, as in the source). -/
def deletePost (consume : Consume) (user : Option User) (now : Int) (id : String)
    (st : ApiState) : Except ApiError Unit × ApiState :=
  match user with
  | none => (.error .notAuthenticated, st)
  | some _ =>
    let res := consume now st.rl
    let st1 : ApiState := { st with rl := res.2 }
    if res.1.remaining ≤ 0 then
      (.error (.rateLimitExceeded res.1.resetTime), st1)
    else
      let filteredPosts := st1.posts.filter (fun post => post.id != id)
      if st1.posts.length = filteredPosts.length then
        (.error .notFound, st1)
      else
        (.ok (), { st1 with posts := filteredPosts })

/-- contentAPI.publishPost (identical in variants A and B apart from the
consume function): authenticate, consume, reject when exhausted, set the
flag and updatedAt on every matching record; the returned record is the last
match (the source captures it in a closure overwritten per match) and
NotFound is thrown, before storing, when no record matched. -/
def publishPost (consume : Consume) (user : Option User) (now : Int) (id : String)
    (isPublished : Bool) (st : ApiState) : Except ApiError Post × ApiState :=
  match user with
  | none => (.error .notAuthenticated, st)
  | some _ =>
    let res := consume now st.rl
    let st1 : ApiState := { st with rl := res.2 }
    if res.1.remaining ≤ 0 then
      (.error (.rateLimitExceeded res.1.resetTime), st1)
    else
      let updatedPosts := st1.posts.map (fun post =>
        if post.id == id then { post with isPublished := isPublished, updatedAt := now }
        else post)
      match (st1.posts.filter (fun post => post.id == id)).getLast? with
      | none => (.error .notFound, st1)
      | some post =>
        (.ok { post with isPublished := isPublished, updatedAt := now },
         { st1 with posts := updatedPosts })

/-- Title/content extraction of variant A generateContent on a successful
backend response: split into lines; when the first line starts with the "# "
title marker the title is that line with the marker removed (a JS
replace-first of "# " on a line that starts with it, so the first two
characters are dropped) and the content is the remaining lines joined and
trimmed; otherwise the title is synthesized from topic and style and the
whole response is the content. -/
def parseGeneratedApi (payload : GenerateContentPayload) (generatedText : String) :
    String × String :=
  let lines := generatedText.splitOn "\n"
  match lines.head? with
  | some firstLine =>
    if firstLine.startsWith "# " then
      (firstLine.drop 2, (String.intercalate "\n" (lines.drop 1)).trim)
    else
      (payload.topic ++ " in " ++ payload.style ++ " Style", generatedText)
  | none => (payload.topic ++ " in " ++ payload.style ++ " Style", generatedText)

/-- The fixed template-literal fallback content of variant A generateContent
(used when the call to the configured backend fails). -/
def fallbackContentApi : String :=
  "\n          # The Evolution of Technology\n\n          In today\x27s rapidly advancing technological landscape, innovation is the key driver of progress. From artificial intelligence to quantum computing, the boundaries of what\x27s possible are constantly expanding.\n\n          ## Current Trends\n\n          - **Artificial Intelligence**: Machine learning algorithms are becoming more sophisticated.\n          - **Blockchain**: Decentralized applications are revolutionizing finance.\n          - **Internet of Things**: Connected devices are creating smarter homes and cities.\n\n          ## Future Implications\n\n          As these technologies evolve, we can expect significant changes in how we work, communicate, and live. The integration of AI into everyday tools will automate routine tasks, while blockchain may transform how we verify transactions and maintain records.\n\n          ## Conclusion\n\n          Staying informed about technological advancements is essential for businesses and individuals alike. The ability to adapt to these changes will determine success in the digital age.\n        "

/-- contentAPI.generateContent of variant A: authenticate, consume, reject
when exhausted, then throw "OpenAI API key is not configured" when no
credential is present (this check sits outside the try/catch); otherwise
the try block parses a successful backend response and the catch falls back
to the fixed template document.  Posts are not touched; only the rate-limit
entry changes. -/
def generateContentApi (user : Option User) (now : Int) (freshId : String)
    (configured : Bool) (backend : BackendOutcome)
    (payload : GenerateContentPayload) (st : ApiState) :
    Except ApiError Post × ApiState :=
  match user with
  | none => (.error .notAuthenticated, st)
  | some u =>
    let res := updateUserRateLimitApi now st.rl
    let st1 : ApiState := { st with rl := res.2 }
    if res.1.remaining ≤ 0 then
      (.error (.rateLimitExceeded res.1.resetTime), st1)
    else if !configured then
      (.error .notConfigured, st1)
    else
      let titleContent :=
        match backend with
        | .success generatedText => parseGeneratedApi payload generatedText
        | .failure =>
          (payload.topic ++ " in " ++ payload.style ++ " Style", fallbackContentApi)
      (.ok { id := freshId, title := titleContent.1, content := titleContent.2,
             topic := payload.topic, style := payload.style,
             isPublished := false, publishDate := none, readTime := none,
             createdAt := now, updatedAt := now,
             userId := u.id.getD "unknown" }, st1)

/-- The deterministic body built by generateMockContent of variant B:
introduction, understanding and benefits sections, a style-specific extra
section for the exact styles "technical", "casual" and "persuasive", and a
conclusion, each referencing the topic by name. -/
def mockContentBody (payload : GenerateContentPayload) : String :=
  let content := ""
  let content := content ++ "## Introduction\n\n"
  let content := content ++ "This is an introduction to " ++ payload.topic ++ ". It sets the stage for the rest of the article and captures the reader\x27s attention.\n\n"
  let content := content ++ "## Understanding " ++ payload.topic ++ "\n\n"
  let content := content ++ "Here we explore the key aspects of " ++ payload.topic ++ " and why it matters in today\x27s world.\n\n"
  let content := content ++ "## Key Benefits\n\n"
  let content := content ++ "- Benefit 1: Improved efficiency and productivity\n"
  let content := content ++ "- Benefit 2: Better outcomes and results\n"
  let content := content ++ "- Benefit 3: Enhanced user experience\n\n"
  let content :=
    if payload.style = "technical" then
      content ++ "## Technical Implementation\n\n"
        ++ "When implementing solutions related to " ++ payload.topic ++ ", consider these technical aspects:\n\n"
        ++ "1. Architecture design\n" ++ "2. Performance optimization\n" ++ "3. Security considerations\n\n"
        ++ "```\nExample code or configuration\n```\n\n"
    else if payload.style = "casual" then
      content ++ "## My Personal Experience\n\n"
        ++ "Let me share a story about how " ++ payload.topic ++ " changed my perspective. It was a sunny afternoon when...\n\n"
    else if payload.style = "persuasive" then
      content ++ "## Why You Should Act Now\n\n"
        ++ "The time to embrace " ++ payload.topic ++ " is now. Those who wait will miss out on these critical advantages that early adopters are already enjoying.\n\n"
    else content
  content ++ "## Conclusion\n\n" ++ "In summary, " ++ payload.topic ++ " represents a significant opportunity that should not be overlooked. The insights shared in this article provide a foundation for further exploration and application.\n\n"

/-- generateMockContent of variant B: an unsaved draft post with the
synthesized title, the deterministic body, unpublished state, fresh
timestamps and the calling user's id. -/
def generateMockContent (payload : GenerateContentPayload) (now : Int)
    (freshId : String) (userId : Option String) : Post :=
  { id := freshId,
    title := payload.topic ++ " in " ++ payload.style ++ " Style",
    content := mockContentBody payload,
    topic := payload.topic, style := payload.style,
    isPublished := false, publishDate := none, readTime := none,
    createdAt := now, updatedAt := now,
    userId := userId.getD "unknown" }

/-- Title/content extraction of generateWithOpenAI (variant B) on a
successful backend response: title defaults to the topic and the whole
response is the content, unless the first line starts with "# ", in which
case the title is that line without its first two characters and the
content is the remaining lines joined (no trim in this variant). -/
def parseGeneratedUtils (payload : GenerateContentPayload) (text : String) :
    String × String :=
  let lines := text.splitOn "\n"
  match lines.head? with
  | some firstLine =>
    if firstLine.startsWith "# " then
      (firstLine.drop 2, String.intercalate "\n" (lines.drop 1))
    else (payload.topic, text)
  | none => (payload.topic, text)

/-- contentAPI.generateContent of variant B: authenticate, consume (with the
lib/utils rate limiter), reject when exhausted; when a credential is
configured try the backend and fall back to generateMockContent on any
failure; when unconfigured use generateMockContent directly.  Every
non-auth, non-rate-limited path returns a post. -/
def generateContentUtils (user : Option User) (now : Int) (freshId : String)
    (configured : Bool) (backend : BackendOutcome)
    (payload : GenerateContentPayload) (st : ApiState) :
    Except ApiError Post × ApiState :=
  match user with
  | none => (.error .notAuthenticated, st)
  | some u =>
    let res := updateUserRateLimitUtils now st.rl
    let st1 : ApiState := { st with rl := res.2 }
    if res.1.remaining ≤ 0 then
      (.error (.rateLimitExceeded res.1.resetTime), st1)
    else if configured then
      match backend with
      | .success text =>
        let titleContent := parseGeneratedUtils payload text
        (.ok { id := freshId, title := titleContent.1, content := titleContent.2,
               topic := payload.topic, style := payload.style,
               isPublished := false, publishDate := none, readTime := none,
               createdAt := now, updatedAt := now,
               userId := u.id.getD "unknown" }, st1)
      | .failure => (.ok (generateMockContent payload now freshId u.id), st1)
    else
      (.ok (generateMockContent payload now freshId u.id), st1)

/-- adminAPI.getAdminStats: require an authenticated caller with role
"admin", then report the number of distinct post owners, the post count,
the count of published posts, and the count of posts whose publishDate is
present and strictly later than now. -/
def getAdminStats (user : Option User) (now : Int) (posts : List Post) :
    Except ApiError AdminStats :=
  match user with
  | none => .error .notAuthenticated
  | some u =>
    if u.role ≠ some "admin" then .error .unauthorized
    else
      .ok { totalUsers := ((posts.map (fun post => post.userId)).eraseDups).length,
            totalPosts := posts.length,
            publishedPosts := (posts.filter (fun post => post.isPublished)).length,
            scheduledPosts := (posts.filter (fun post =>
              post.publishDate.any (fun d => decide (now < d)))).length }

/-- Iterated consume against the lib/utils rate limiter for one user at a
fixed instant: the stored entry after n successive updateUserRateLimit
calls. -/
def consumeN (now : Int) (n : Nat) (entry : Option RateLimitInfo) :
    Option RateLimitInfo :=
  match n with
  | 0 => entry
  | k + 1 => (updateUserRateLimitUtils now (consumeN now k entry)).2

/-! ### Sample concrete values used by witnesses and counterexamples -/

/-- A plain authenticated, non-admin user. -/
def sampleUser : User :=
  { id := some "alice", email := "alice@example.com", name := none,
    createdAt := none, role := some "user" }

/-- An authenticated user with the admin role. -/
def adminUserEx : User :=
  { id := some "root", email := "root@example.com", name := none,
    createdAt := none, role := some "admin" }

/-- A second authenticated non-admin user, distinct from the post owner. -/
def bobUser : User :=
  { id := some "bob", email := "bob@example.com", name := none,
    createdAt := none, role := some "user" }

/-- A stored post owned by alice. -/
def alicePost : Post :=
  { id := "p1", title := "T", content := "C", topic := "AI", style := "pro",
    isPublished := true, publishDate := none, readTime := none,
    createdAt := 0, updatedAt := 0, userId := "alice" }

/-- A stored post with a schedule date, owned by alice. -/
def scheduledPost : Post :=
  { alicePost with publishDate := some 999 }

/-- A sample caught-failure log entry. -/
def errEntry : ErrorLogEntry := { timestamp := 0, error := "boom", stack := none }

/-- A sample db-operation log entry. -/
def dbEntry : DbLogEntry :=
  { timestamp := 0, operation := "savePost", details := "d", user := "alice" }

/-! ### Helper lemmas -/

/-- Consuming inside the window (variant A): increment and recompute. -/
theorem updateApi_in_window (now : Int) (rl : RateLimitInfo) (h : ¬ now > rl.resetTime) :
    updateUserRateLimitApi now (some rl) =
      ({ rl with
          current := rl.current + 1,
          remaining := max 0 (rl.limit - (rl.current + 1)) },
       some { rl with
                current := rl.current + 1,
                remaining := max 0 (rl.limit - (rl.current + 1)) }) := by
  simp [updateUserRateLimitApi, h]

/-- Consuming inside the window (lib/utils variant): increment and recompute. -/
theorem updateUtils_in_window (now : Int) (rl : RateLimitInfo) (h : ¬ now > rl.resetTime) :
    updateUserRateLimitUtils now (some rl) =
      ({ rl with
          current := rl.current + 1,
          remaining := max 0 (rl.limit - (rl.current + 1)) },
       some { rl with
                current := rl.current + 1,
                remaining := max 0 (rl.limit - (rl.current + 1)) }) := by
  simp [updateUserRateLimitUtils, getUserRateLimitUtils, h]

/-- First consume of a fresh user (lib/utils variant): the lazily initialized
entry is charged once. -/
theorem updateUtils_fresh (now : Int) :
    updateUserRateLimitUtils now none =
      ({ limit := 10, current := 1, remaining := 9, resetTime := now + 60 * 60 * 1000 },
       some { limit := 10, current := 1, remaining := 9,
              resetTime := now + 60 * 60 * 1000 }) := by
  have h : ¬ now > now + 60 * 60 * 1000 := by omega
  simp [updateUserRateLimitUtils, getUserRateLimitUtils, h]

/-- The stored entry after n + 1 consumes of a fresh user at one instant
(lib/utils variant): current = n + 1, remaining = max 0 (10 - (n + 1)). -/
theorem consumeN_fresh (now : Int) (n : Nat) :
    consumeN now (n + 1) none =
      some { limit := 10, current := (n : Int) + 1,
             remaining := max 0 (10 - ((n : Int) + 1)),
             resetTime := now + 60 * 60 * 1000 } := by
  induction n with
  | zero =>
    have h := updateUtils_fresh now
    simp [consumeN, h]
  | succ k ih =>
    have hwin : ¬ now > now + 60 * 60 * 1000 := by omega
    show (updateUserRateLimitUtils now (consumeN now (k + 1) none)).2 = _
    rw [ih, updateUtils_in_window now _ (by exact hwin)]
    simp

/-- savePost on an exhausted consume: rejected, posts untouched, the consumed
entry persisted. -/
theorem savePost_rejected (consume : Consume) (u : User) (now : Int) (freshId : String)
    (payload : SavePostPayload) (st : ApiState)
    (h : (consume now st.rl).1.remaining ≤ 0) :
    savePost consume (some u) now freshId payload st =
      (.error (.rateLimitExceeded (consume now st.rl).1.resetTime),
       { st with rl := (consume now st.rl).2 }) := by
  simp [savePost, h]

/-- deletePost on an exhausted consume: rejected, posts untouched, the
consumed entry persisted. -/
theorem deletePost_rejected (consume : Consume) (u : User) (now : Int) (id : String)
    (st : ApiState) (h : (consume now st.rl).1.remaining ≤ 0) :
    deletePost consume (some u) now id st =
      (.error (.rateLimitExceeded (consume now st.rl).1.resetTime),
       { st with rl := (consume now st.rl).2 }) := by
  simp [deletePost, h]

/-- publishPost on an exhausted consume: rejected, posts untouched, the
consumed entry persisted. -/
theorem publishPost_rejected (consume : Consume) (u : User) (now : Int) (id : String)
    (flag : Bool) (st : ApiState) (h : (consume now st.rl).1.remaining ≤ 0) :
    publishPost consume (some u) now id flag st =
      (.error (.rateLimitExceeded (consume now st.rl).1.resetTime),
       { st with rl := (consume now st.rl).2 }) := by
  simp [publishPost, h]

/-- generateContent (variant B) on an exhausted consume: rejected, posts
untouched, the consumed entry persisted. -/
theorem generateContentUtils_rejected (u : User) (now : Int) (freshId : String)
    (configured : Bool) (backend : BackendOutcome) (payload : GenerateContentPayload)
    (st : ApiState) (h : (updateUserRateLimitUtils now st.rl).1.remaining ≤ 0) :
    generateContentUtils (some u) now freshId configured backend payload st =
      (.error (.rateLimitExceeded (updateUserRateLimitUtils now st.rl).1.resetTime),
       { st with rl := (updateUserRateLimitUtils now st.rl).2 }) := by
  simp [generateContentUtils, h]

/-- generateContent (variant A) on an exhausted consume: rejected, posts
untouched, the consumed entry persisted. -/
theorem generateContentApi_rejected (u : User) (now : Int) (freshId : String)
    (configured : Bool) (backend : BackendOutcome) (payload : GenerateContentPayload)
    (st : ApiState) (h : (updateUserRateLimitApi now st.rl).1.remaining ≤ 0) :
    generateContentApi (some u) now freshId configured backend payload st =
      (.error (.rateLimitExceeded (updateUserRateLimitApi now st.rl).1.resetTime),
       { st with rl := (updateUserRateLimitApi now st.rl).2 }) := by
  simp [generateContentApi, h]

/-! ### Claim theorems -/

/-- C7: after every consume, in both rate-limiter variants, the returned
state satisfies remaining = max 0 (limit - current) (hence remaining is
never negative) and is exactly what is persisted.  For the api.ts variant
the reset branch writes the constant MAX_REQUESTS_PER_HOUR - 1, so the
invariant is stated under the (always true for code-produced states)
hypothesis that a stored entry carries limit = MAX_REQUESTS_PER_HOUR. -/
theorem consume_remaining_invariant :
    (∀ (now : Int) (entry : Option RateLimitInfo),
      (∀ rl ∈ entry, rl.limit = MAX_REQUESTS_PER_HOUR) →
      ((updateUserRateLimitApi now entry).1.remaining =
          max 0 ((updateUserRateLimitApi now entry).1.limit -
            (updateUserRateLimitApi now entry).1.current) ∧
        0 ≤ (updateUserRateLimitApi now entry).1.remaining ∧
        (updateUserRateLimitApi now entry).2 = some (updateUserRateLimitApi now entry).1)) ∧
    (∀ (now : Int) (entry : Option RateLimitInfo),
      (updateUserRateLimitUtils now entry).1.remaining =
        max 0 ((updateUserRateLimitUtils now entry).1.limit -
          (updateUserRateLimitUtils now entry).1.current) ∧
      0 ≤ (updateUserRateLimitUtils now entry).1.remaining ∧
      (updateUserRateLimitUtils now entry).2 = some (updateUserRateLimitUtils now entry).1) := by
  constructor
  · intro now entry h
    match entry with
    | none =>
      refine ⟨?_, ?_, ?_⟩ <;>
        simp [updateUserRateLimitApi, getUserRateLimitApi, MAX_REQUESTS_PER_HOUR]
    | some rl =>
      have hl : rl.limit = MAX_REQUESTS_PER_HOUR := h rl rfl
      by_cases hw : now > rl.resetTime
      · refine ⟨?_, ?_, ?_⟩ <;>
          simp [updateUserRateLimitApi, hw, hl, MAX_REQUESTS_PER_HOUR]
      · rw [updateApi_in_window now rl hw]
        exact ⟨rfl, le_max_left 0 _, rfl⟩
  · intro now entry
    match entry with
    | none =>
      rw [updateUtils_fresh now]
      refine ⟨by norm_num, by norm_num, rfl⟩
    | some rl =>
      by_cases hw : now > rl.resetTime
      · refine ⟨?_, ?_, ?_⟩ <;>
          simp [updateUserRateLimitUtils, getUserRateLimitUtils, hw]
      · rw [updateUtils_in_window now rl hw]
        exact ⟨rfl, le_max_left 0 _, rfl⟩

/-- C7 witness: the invariant instantiated at a fresh entry at time 0. -/
theorem consume_remaining_invariant_witness :
    (∀ rl ∈ (none : Option RateLimitInfo), rl.limit = MAX_REQUESTS_PER_HOUR) ∧
    ((updateUserRateLimitApi 0 none).1.remaining =
        max 0 ((updateUserRateLimitApi 0 none).1.limit -
          (updateUserRateLimitApi 0 none).1.current) ∧
      0 ≤ (updateUserRateLimitApi 0 none).1.remaining ∧
      (updateUserRateLimitApi 0 none).2 = some (updateUserRateLimitApi 0 none).1) ∧
    ((updateUserRateLimitUtils 0 none).1.remaining =
        max 0 ((updateUserRateLimitUtils 0 none).1.limit -
          (updateUserRateLimitUtils 0 none).1.current) ∧
      0 ≤ (updateUserRateLimitUtils 0 none).1.remaining ∧
      (updateUserRateLimitUtils 0 none).2 = some (updateUserRateLimitUtils 0 none).1) :=
  ⟨by simp, consume_remaining_invariant.1 0 none (by simp),
    consume_remaining_invariant.2 0 none⟩

/-- C8: for an existing entry whose resetTime is strictly in the past, the
next consume yields current = 1, remaining = limit - 1 regardless of its
prior current, and a resetTime one window after now.  The api.ts variant is
stated for entries carrying limit = MAX_REQUESTS_PER_HOUR (as all
code-produced entries do); the lib/utils variant only needs 1 ≤ limit. -/
theorem consume_reset_after_expiry :
    (∀ (now : Int) (rl : RateLimitInfo), now > rl.resetTime →
      rl.limit = MAX_REQUESTS_PER_HOUR →
      ((updateUserRateLimitApi now (some rl)).1.current = 1 ∧
        (updateUserRateLimitApi now (some rl)).1.remaining = rl.limit - 1 ∧
        (updateUserRateLimitApi now (some rl)).1.resetTime = now + RATE_LIMIT_WINDOW)) ∧
    (∀ (now : Int) (rl : RateLimitInfo), now > rl.resetTime → 1 ≤ rl.limit →
      ((updateUserRateLimitUtils now (some rl)).1.current = 1 ∧
        (updateUserRateLimitUtils now (some rl)).1.remaining = rl.limit - 1 ∧
        (updateUserRateLimitUtils now (some rl)).1.resetTime = now + 60 * 60 * 1000)) := by
  constructor
  · intro now rl hw hl
    refine ⟨?_, ?_, ?_⟩ <;> simp [updateUserRateLimitApi, hw, hl]
  · intro now rl hw hl
    refine ⟨?_, ?_, ?_⟩ <;> simp [updateUserRateLimitUtils, getUserRateLimitUtils, hw]
    omega

/-- An expired api.ts-variant entry used by the C8 witness. -/
def expiredApiEntry : RateLimitInfo :=
  { limit := 20, current := 17, remaining := 3, resetTime := 100 }

/-- An expired lib/utils-variant entry used by the C8 witness. -/
def expiredUtilsEntry : RateLimitInfo :=
  { limit := 10, current := 7, remaining := 3, resetTime := 100 }

/-- C8 witness: expired entries with nonzero prior current consumed at
time 200. -/
theorem consume_reset_after_expiry_witness :
    ((200 : Int) > expiredApiEntry.resetTime ∧
      expiredApiEntry.limit = MAX_REQUESTS_PER_HOUR ∧
      ((updateUserRateLimitApi 200 (some expiredApiEntry)).1.current = 1 ∧
        (updateUserRateLimitApi 200 (some expiredApiEntry)).1.remaining =
          expiredApiEntry.limit - 1 ∧
        (updateUserRateLimitApi 200 (some expiredApiEntry)).1.resetTime =
          200 + RATE_LIMIT_WINDOW)) ∧
    ((200 : Int) > expiredUtilsEntry.resetTime ∧
      (1 : Int) ≤ expiredUtilsEntry.limit ∧
      ((updateUserRateLimitUtils 200 (some expiredUtilsEntry)).1.current = 1 ∧
        (updateUserRateLimitUtils 200 (some expiredUtilsEntry)).1.remaining =
          expiredUtilsEntry.limit - 1 ∧
        (updateUserRateLimitUtils 200 (some expiredUtilsEntry)).1.resetTime =
          200 + 60 * 60 * 1000)) :=
  ⟨⟨by decide, by decide,
    consume_reset_after_expiry.1 200 expiredApiEntry (by decide) (by decide)⟩,
   ⟨by decide, by decide,
    consume_reset_after_expiry.2 200 expiredUtilsEntry (by decide) (by decide)⟩⟩

/-- C2: for a fresh user of the limit-10 (lib/utils) rate limiter, the 10th
consume within the window returns remaining = 0, and an 11th mutating
operation in the same window — savePost, deletePost, publishPost or
generateContent — is rejected with a rate-limit error (carrying the window
reset time) and leaves the posts table unchanged. -/
theorem tenth_consume_exhausts_eleventh_rejected
    (now : Int) (user : User) (freshId : String) (payload : SavePostPayload)
    (gpayload : GenerateContentPayload) (configured : Bool) (backend : BackendOutcome)
    (pid : String) (flag : Bool) (posts : List Post) :
    (updateUserRateLimitUtils now (consumeN now 9 none)).1.remaining = 0 ∧
    ((savePost updateUserRateLimitUtils (some user) now freshId payload
        { posts := posts, rl := consumeN now 10 none }).1 =
        .error (.rateLimitExceeded (now + 60 * 60 * 1000)) ∧
      (savePost updateUserRateLimitUtils (some user) now freshId payload
        { posts := posts, rl := consumeN now 10 none }).2.posts = posts) ∧
    ((deletePost updateUserRateLimitUtils (some user) now pid
        { posts := posts, rl := consumeN now 10 none }).1 =
        .error (.rateLimitExceeded (now + 60 * 60 * 1000)) ∧
      (deletePost updateUserRateLimitUtils (some user) now pid
        { posts := posts, rl := consumeN now 10 none }).2.posts = posts) ∧
    ((publishPost updateUserRateLimitUtils (some user) now pid flag
        { posts := posts, rl := consumeN now 10 none }).1 =
        .error (.rateLimitExceeded (now + 60 * 60 * 1000)) ∧
      (publishPost updateUserRateLimitUtils (some user) now pid flag
        { posts := posts, rl := consumeN now 10 none }).2.posts = posts) ∧
    ((generateContentUtils (some user) now freshId configured backend gpayload
        { posts := posts, rl := consumeN now 10 none }).1 =
        .error (.rateLimitExceeded (now + 60 * 60 * 1000)) ∧
      (generateContentUtils (some user) now freshId configured backend gpayload
        { posts := posts, rl := consumeN now 10 none }).2.posts = posts) := by
  have hwin : ¬ now > now + 60 * 60 * 1000 := by omega
  have h9 := consumeN_fresh now 8
  have h10 := consumeN_fresh now 9
  have hst : ({ posts := posts, rl := consumeN now 10 none } : ApiState).rl =
      consumeN now 10 none := rfl
  have hle : (updateUserRateLimitUtils now (consumeN now 10 none)).1.remaining ≤ 0 := by
    rw [h10, updateUtils_in_window now _ hwin]
    simp
  have hreset : (updateUserRateLimitUtils now (consumeN now 10 none)).1.resetTime =
      now + 60 * 60 * 1000 := by
    rw [h10, updateUtils_in_window now _ hwin]
  refine ⟨?_, ⟨?_, ?_⟩, ⟨?_, ?_⟩, ⟨?_, ?_⟩, ⟨?_, ?_⟩⟩
  · rw [h9, updateUtils_in_window now _ hwin]
    simp
  · rw [savePost_rejected _ user now freshId payload _ (hst ▸ hle), hreset]
  · rw [savePost_rejected _ user now freshId payload _ (hst ▸ hle)]
  · rw [deletePost_rejected _ user now pid _ (hst ▸ hle), hreset]
  · rw [deletePost_rejected _ user now pid _ (hst ▸ hle)]
  · rw [publishPost_rejected _ user now pid flag _ (hst ▸ hle), hreset]
  · rw [publishPost_rejected _ user now pid flag _ (hst ▸ hle)]
  · rw [generateContentUtils_rejected user now freshId configured backend gpayload _
      (hst ▸ hle), hreset]
  · rw [generateContentUtils_rejected user now freshId configured backend gpayload _
      (hst ▸ hle)]

/-- C10: when a mutating operation of variant A (savePost, deletePost,
publishPost, generateContent) is rejected for rate limiting, the posts
table is unchanged but the caller is still charged: the persisted entry has
current incremented by the rejecting consume. -/
theorem rate_limited_rejection_still_charged
    (user : User) (now : Int) (freshId : String) (payload : SavePostPayload)
    (pid : String) (flag : Bool) (gpayload : GenerateContentPayload)
    (configured : Bool) (backend : BackendOutcome)
    (st : ApiState) (rl : RateLimitInfo)
    (hrl : st.rl = some rl) (hwin : ¬ now > rl.resetTime)
    (hex : rl.limit - (rl.current + 1) ≤ 0) :
    ((savePost updateUserRateLimitApi (some user) now freshId payload st).1 =
        .error (.rateLimitExceeded rl.resetTime) ∧
      (savePost updateUserRateLimitApi (some user) now freshId payload st).2.posts =
        st.posts ∧
      (savePost updateUserRateLimitApi (some user) now freshId payload st).2.rl =
        some { rl with
                current := rl.current + 1,
                remaining := max 0 (rl.limit - (rl.current + 1)) }) ∧
    ((deletePost updateUserRateLimitApi (some user) now pid st).1 =
        .error (.rateLimitExceeded rl.resetTime) ∧
      (deletePost updateUserRateLimitApi (some user) now pid st).2.posts = st.posts ∧
      (deletePost updateUserRateLimitApi (some user) now pid st).2.rl =
        some { rl with
                current := rl.current + 1,
                remaining := max 0 (rl.limit - (rl.current + 1)) }) ∧
    ((publishPost updateUserRateLimitApi (some user) now pid flag st).1 =
        .error (.rateLimitExceeded rl.resetTime) ∧
      (publishPost updateUserRateLimitApi (some user) now pid flag st).2.posts =
        st.posts ∧
      (publishPost updateUserRateLimitApi (some user) now pid flag st).2.rl =
        some { rl with
                current := rl.current + 1,
                remaining := max 0 (rl.limit - (rl.current + 1)) }) ∧
    ((generateContentApi (some user) now freshId configured backend gpayload st).1 =
        .error (.rateLimitExceeded rl.resetTime) ∧
      (generateContentApi (some user) now freshId configured backend gpayload st).2.posts =
        st.posts ∧
      (generateContentApi (some user) now freshId configured backend gpayload st).2.rl =
        some { rl with
                current := rl.current + 1,
                remaining := max 0 (rl.limit - (rl.current + 1)) }) := by
  have hupd := updateApi_in_window now rl hwin
  have hle : (updateUserRateLimitApi now st.rl).1.remaining ≤ 0 := by
    rw [hrl, hupd]
    simpa using by omega
  have hreset : (updateUserRateLimitApi now st.rl).1.resetTime = rl.resetTime := by
    rw [hrl, hupd]
  have hcharged : (updateUserRateLimitApi now st.rl).2 =
      some { rl with
              current := rl.current + 1,
              remaining := max 0 (rl.limit - (rl.current + 1)) } := by
    rw [hrl, hupd]
  refine ⟨⟨?_, ?_, ?_⟩, ⟨?_, ?_, ?_⟩, ⟨?_, ?_, ?_⟩, ⟨?_, ?_, ?_⟩⟩
  · rw [savePost_rejected _ user now freshId payload st hle, hreset]
  · rw [savePost_rejected _ user now freshId payload st hle]
  · rw [savePost_rejected _ user now freshId payload st hle]
    exact hcharged
  · rw [deletePost_rejected _ user now pid st hle, hreset]
  · rw [deletePost_rejected _ user now pid st hle]
  · rw [deletePost_rejected _ user now pid st hle]
    exact hcharged
  · rw [publishPost_rejected _ user now pid flag st hle, hreset]
  · rw [publishPost_rejected _ user now pid flag st hle]
  · rw [publishPost_rejected _ user now pid flag st hle]
    exact hcharged
  · rw [generateContentApi_rejected user now freshId configured backend gpayload st hle,
      hreset]
  · rw [generateContentApi_rejected user now freshId configured backend gpayload st hle]
  · rw [generateContentApi_rejected user now freshId configured backend gpayload st hle]
    exact hcharged

/-- An exhausted api.ts-variant entry used by the C10 witness. -/
def exhaustedApiEntry : RateLimitInfo :=
  { limit := 20, current := 20, remaining := 0, resetTime := 100 }

/-- The service state used by the C10 witness. -/
def exhaustedState : ApiState := { posts := [alicePost], rl := some exhaustedApiEntry }

/-- A creation payload (no id) used by witnesses. -/
def createPayload : SavePostPayload :=
  { id := none, title := "T2", content := "C2", topic := "AI", style := "pro",
    isPublished := none, publishDate := none }

/-- C10 witness: a concrete exhausted state at time 50; the rejected save
leaves the post list alone and persists the incremented counter. -/
theorem rate_limited_rejection_still_charged_witness :
    exhaustedState.rl = some exhaustedApiEntry ∧
    ¬ (50 : Int) > exhaustedApiEntry.resetTime ∧
    exhaustedApiEntry.limit - (exhaustedApiEntry.current + 1) ≤ 0 ∧
    (savePost updateUserRateLimitApi (some sampleUser) 50 "f1" createPayload
        exhaustedState).1 =
      .error (.rateLimitExceeded exhaustedApiEntry.resetTime) ∧
    (savePost updateUserRateLimitApi (some sampleUser) 50 "f1" createPayload
        exhaustedState).2.posts = exhaustedState.posts ∧
    (savePost updateUserRateLimitApi (some sampleUser) 50 "f1" createPayload
        exhaustedState).2.rl =
      some { exhaustedApiEntry with
              current := exhaustedApiEntry.current + 1,
              remaining := max 0 (exhaustedApiEntry.limit -
                (exhaustedApiEntry.current + 1)) } :=
  ⟨rfl, by decide, by decide,
    (rate_limited_rejection_still_charged sampleUser 50 "f1" createPayload "p1" true
      { topic := "AI", style := "pro" } false .failure exhaustedState exhaustedApiEntry
      rfl (by decide) (by decide)).1.1,
    (rate_limited_rejection_still_charged sampleUser 50 "f1" createPayload "p1" true
      { topic := "AI", style := "pro" } false .failure exhaustedState exhaustedApiEntry
      rfl (by decide) (by decide)).1.2.1,
    (rate_limited_rejection_still_charged sampleUser 50 "f1" createPayload "p1" true
      { topic := "AI", style := "pro" } false .failure exhaustedState exhaustedApiEntry
      rfl (by decide) (by decide)).1.2.2⟩

/-- C1 (amended): for an authenticated, non-rate-limited caller, variant B
generateContent always succeeds — unconfigured backend and failing backend
both produce the deterministic local fallback — while variant A succeeds for
every backend outcome only when a backend credential is configured (its
unconfigured check throws outside the try/catch). -/
theorem generate_content_total (user : User) (now : Int) (freshId : String)
    (configured : Bool) (backend : BackendOutcome)
    (payload : GenerateContentPayload) (st : ApiState) :
    (0 < (updateUserRateLimitUtils now st.rl).1.remaining →
      ∃ post, (generateContentUtils (some user) now freshId configured backend
        payload st).1 = .ok post) ∧
    (0 < (updateUserRateLimitApi now st.rl).1.remaining → configured = true →
      ∃ post, (generateContentApi (some user) now freshId configured backend
        payload st).1 = .ok post) := by
  constructor
  · intro h
    have hng : ¬ (updateUserRateLimitUtils now st.rl).1.remaining ≤ 0 := by omega
    cases configured <;> cases backend <;> simp [generateContentUtils, hng]
  · intro h hc
    subst hc
    have hng : ¬ (updateUserRateLimitApi now st.rl).1.remaining ≤ 0 := by omega
    cases backend <;> simp [generateContentApi, hng]

/-- C1 witness: fresh rate-limit windows at time 0; variant B with no
backend configured, variant A with a configured but failing backend. -/
theorem generate_content_total_witness :
    (0 < (updateUserRateLimitUtils 0 (none : Option RateLimitInfo)).1.remaining ∧
      ∃ post, (generateContentUtils (some sampleUser) 0 "g1" false .failure
        { topic := "AI", style := "technical" } { posts := [], rl := none }).1 =
        .ok post) ∧
    (0 < (updateUserRateLimitApi 0 (none : Option RateLimitInfo)).1.remaining ∧
      ∃ post, (generateContentApi (some sampleUser) 0 "g1" true .failure
        { topic := "AI", style := "technical" } { posts := [], rl := none }).1 =
        .ok post) :=
  ⟨⟨by decide,
    (generate_content_total sampleUser 0 "g1" false .failure
      { topic := "AI", style := "technical" } { posts := [], rl := none }).1
      (by decide)⟩,
   ⟨by decide,
    (generate_content_total sampleUser 0 "g1" true .failure
      { topic := "AI", style := "technical" } { posts := [], rl := none }).2
      (by decide) rfl⟩⟩

/-- C1 counterexample: variant A, authenticated caller, fresh rate-limit
window, no configured backend: generateContent fails with the configuration
error instead of falling back, refuting the claim as stated for variant A. -/
theorem generate_content_unconfigured_cex :
    (generateContentApi (some sampleUser) 0 "g1" false .failure
      { topic := "AI", style := "technical" } { posts := [], rl := none }).1 =
      .error .notConfigured := by
  rfl

/-- C9: getAdminStats requires the admin role (any other authenticated
caller gets the unauthorized error) and reports the post count, the count
of published posts, and the count of posts with a publishDate strictly
later than now. -/
theorem admin_stats_spec (user : User) (now : Int) (posts : List Post) :
    (user.role = some "admin" →
      getAdminStats (some user) now posts =
        .ok { totalUsers := ((posts.map (fun post => post.userId)).eraseDups).length,
              totalPosts := posts.length,
              publishedPosts := posts.countP (fun post => post.isPublished),
              scheduledPosts := posts.countP (fun post =>
                post.publishDate.any (fun d => decide (now < d))) }) ∧
    (user.role ≠ some "admin" →
      getAdminStats (some user) now posts = .error .unauthorized) := by
  constructor
  · intro h
    simp [getAdminStats, h, List.countP_eq_length_filter]
  · intro h
    simp [getAdminStats, h]

/-- The three-post store of the C9 scenario: two published posts and one
unpublished post scheduled in the future. -/
def statsPosts : List Post :=
  [ { alicePost with id := "s1", isPublished := true, publishDate := none },
    { alicePost with id := "s2", isPublished := true, publishDate := none, userId := "bob" },
    { alicePost with id := "s3", isPublished := false, publishDate := some 50 } ]

/-- C9 witness: the spec scenario — an admin over 3 posts with 2 published
and 1 future-scheduled gets totalPosts = 3, publishedPosts = 2,
scheduledPosts = 1. -/
theorem admin_stats_spec_witness :
    adminUserEx.role = some "admin" ∧
    getAdminStats (some adminUserEx) 0 statsPosts =
      .ok { totalUsers := 2, totalPosts := 3, publishedPosts := 2,
            scheduledPosts := 1 } := by
  refine ⟨rfl, ?_⟩
  rw [(admin_stats_spec adminUserEx 0 statsPosts).1 rfl]
  rfl

/-- The update payload with an id that matches no stored post. -/
def missingIdPayload : SavePostPayload :=
  { id := some "p2", title := "T2", content := "C2", topic := "AI", style := "pro",
    isPublished := none, publishDate := none }

/-- C3 (code-bug evaluation): savePost called by an authenticated,
non-rate-limited user with payload.id = "p2" against a store holding only
"p1" resolves successfully with an absent record (the possibly-undefined
find result force-cast to Post in the source) and leaves the posts table
unchanged, instead of failing with NotFound as the declared Promise Post
return type and the documented contract require. -/
theorem save_post_missing_id_returns_absent :
    (savePost updateUserRateLimitApi (some sampleUser) 0 "f1" missingIdPayload
      { posts := [alicePost], rl := none }).1 = .ok none ∧
    (savePost updateUserRateLimitApi (some sampleUser) 0 "f1" missingIdPayload
      { posts := [alicePost], rl := none }).2.posts = [alicePost] :=
  ⟨rfl, rfl⟩

/-- A strict decrease of filter length at a dropped member. -/
theorem length_filter_lt_of_mem {α : Type} (p : α → Bool) (l : List α) (x : α)
    (hx : x ∈ l) (hpx : p x = false) : (l.filter p).length < l.length := by
  induction l with
  | nil => simp at hx
  | cons a t ih =>
    rcases List.mem_cons.mp hx with h | h
    · subst h
      simp only [List.filter_cons, if_neg (by simp [hpx] : ¬ p x = true),
        List.length_cons]
      exact Nat.lt_succ_of_le (List.length_filter_le p t)
    · by_cases hpa : p a = true
      · simp only [List.filter_cons, if_pos hpa, List.length_cons]
        exact Nat.succ_lt_succ (ih h)
      · simp only [List.filter_cons, if_neg hpa, List.length_cons]
        exact Nat.lt_succ_of_lt (ih h)

/-- C4 (amended): deletePost checks authentication and the rate limit but
never ownership or role: any authenticated caller within the rate limit
deletes any existing post. -/
theorem delete_post_ignores_ownership (user : User) (now : Int) (id : String)
    (st : ApiState) (post : Post) (hmem : post ∈ st.posts) (hid : post.id = id)
    (hrem : 0 < (updateUserRateLimitApi now st.rl).1.remaining) :
    (deletePost updateUserRateLimitApi (some user) now id st).1 = .ok () ∧
    (deletePost updateUserRateLimitApi (some user) now id st).2.posts =
      st.posts.filter (fun p => p.id != id) := by
  have hng : ¬ (updateUserRateLimitApi now st.rl).1.remaining ≤ 0 := by omega
  have hlt : (st.posts.filter (fun p => p.id != id)).length < st.posts.length :=
    length_filter_lt_of_mem _ _ post hmem (by simp [hid])
  have hne : ¬ st.posts.length = (st.posts.filter (fun p => p.id != id)).length := by
    omega
  constructor <;> simp [deletePost, hng, hne]

/-- C4 witness: bob deletes alice\x27s post. -/
theorem delete_post_ignores_ownership_witness :
    alicePost ∈ [alicePost] ∧ alicePost.id = "p1" ∧
    0 < (updateUserRateLimitApi 0 (none : Option RateLimitInfo)).1.remaining ∧
    ((deletePost updateUserRateLimitApi (some bobUser) 0 "p1"
        { posts := [alicePost], rl := none }).1 = .ok () ∧
      (deletePost updateUserRateLimitApi (some bobUser) 0 "p1"
        { posts := [alicePost], rl := none }).2.posts =
        [alicePost].filter (fun p => p.id != "p1")) :=
  ⟨by simp, rfl, by decide,
    delete_post_ignores_ownership bobUser 0 "p1" { posts := [alicePost], rl := none }
      alicePost (by simp) rfl (by decide)⟩

/-- C4 counterexample: a different authenticated, non-admin user (bob, not
the owner alice) deletes post p1 and the store ends empty, refuting the
claim that a non-owner non-admin delete leaves the post in place. -/
theorem delete_post_non_owner_cex :
    bobUser.role ≠ some "admin" ∧
    alicePost.userId = "alice" ∧ bobUser.id = some "bob" ∧
    (deletePost updateUserRateLimitApi (some bobUser) 0 "p1"
      { posts := [alicePost], rl := none }).1 = .ok () ∧
    (deletePost updateUserRateLimitApi (some bobUser) 0 "p1"
      { posts := [alicePost], rl := none }).2.posts = [] :=
  ⟨by decide, rfl, rfl, rfl, rfl⟩

/-- The update payload that omits both isPublished and publishDate, aimed at
the stored post p1. -/
def omitDatePayload : SavePostPayload :=
  { id := some "p1", title := "T2", content := "C2", topic := "AI", style := "pro",
    isPublished := none, publishDate := none }

/-- The record savePost produces for scheduledPost under omitDatePayload at
time 7: text fields replaced, isPublished preserved, publishDate cleared. -/
def clearedPost : Post :=
  { id := "p1", title := "T2", content := "C2", topic := "AI", style := "pro",
    isPublished := true, publishDate := none, readTime := none,
    createdAt := 0, updatedAt := 7, userId := "alice" }

/-- C5 counterexample: updating a post whose stored publishDate is some 999
with a payload omitting publishDate does not preserve the date — the saved
record has publishDate cleared to none. -/
theorem save_post_omitted_date_cleared_cex :
    scheduledPost.publishDate = some 999 ∧
    omitDatePayload.publishDate = none ∧
    (savePost updateUserRateLimitApi (some sampleUser) 7 "f1" omitDatePayload
      { posts := [scheduledPost], rl := none }).1 = .ok (some clearedPost) ∧
    clearedPost.publishDate = none :=
  ⟨rfl, rfl, rfl, rfl⟩

/-- find? commutes with the savePost update map on the matching id (the
update preserves the id field). -/
theorem find_map_saveUpdate (payload : SavePostPayload) (now : Int) (pid : String)
    (l : List Post) (post : Post)
    (h : l.find? (fun p => p.id == pid) = some post) :
    (l.map (fun p => if p.id == pid then applySaveUpdate payload now p else p)).find?
      (fun p => p.id == pid) = some (applySaveUpdate payload now post) := by
  induction l with
  | nil => simp at h
  | cons a t ih =>
    by_cases ha : (a.id == pid) = true
    · have ha2 : ((applySaveUpdate payload now a).id == pid) = true := ha
      simp only [List.find?, ha] at h
      injection h with h
      subst h
      rw [List.map_cons, if_pos ha]
      simp only [List.find?, ha2]
    · have ha3 : (a.id == pid) = false := by simpa using ha
      simp only [List.find?, ha3] at h
      rw [List.map_cons, if_neg ha]
      simp only [List.find?, ha3]
      exact ih h

/-- The update branch of savePost, spelled out: when payload.id is present
and the consume does not exhaust the limit, savePost maps the merge over the
table and returns the find result on the updated table. -/
theorem savePost_update_branch (consume : Consume) (u : User) (now : Int)
    (freshId : String) (payload : SavePostPayload) (pid : String) (st : ApiState)
    (hid : payload.id = some pid)
    (hok : ¬ (consume now st.rl).1.remaining ≤ 0) :
    savePost consume (some u) now freshId payload st =
      (.ok ((st.posts.map (fun p =>
          if p.id == pid then applySaveUpdate payload now p else p)).find?
          (fun p => p.id == pid)),
       { posts := st.posts.map (fun p =>
           if p.id == pid then applySaveUpdate payload now p else p),
         rl := (consume now st.rl).2 }) := by
  simp [savePost, hid, hok]

/-- C5 (amended): on an update, savePost replaces the text fields, keeps
isPublished only when the payload omits it, refreshes updatedAt, preserves
id/createdAt/userId/readTime — and installs the payload publishDate
unconditionally, so an omitted publishDate clears the stored value rather
than preserving it. -/
theorem save_post_update_field_semantics (user : User) (now : Int) (freshId : String)
    (payload : SavePostPayload) (pid : String) (st : ApiState) (post : Post)
    (hid : payload.id = some pid)
    (hfind : st.posts.find? (fun p => p.id == pid) = some post)
    (hrem : 0 < (updateUserRateLimitApi now st.rl).1.remaining) :
    (savePost updateUserRateLimitApi (some user) now freshId payload st).1 =
      .ok (some { post with
                   title := payload.title,
                   content := payload.content,
                   topic := payload.topic,
                   style := payload.style,
                   isPublished := payload.isPublished.getD post.isPublished,
                   publishDate := payload.publishDate,
                   updatedAt := now }) := by
  have hng : ¬ (updateUserRateLimitApi now st.rl).1.remaining ≤ 0 := by omega
  have hmap := find_map_saveUpdate payload now pid st.posts post hfind
  rw [savePost_update_branch updateUserRateLimitApi user now freshId payload pid st
    hid hng]
  simp only [hmap]
  rfl

/-- C5 witness: the amended semantics instantiated at scheduledPost and
omitDatePayload. -/
theorem save_post_update_field_semantics_witness :
    omitDatePayload.id = some "p1" ∧
    [scheduledPost].find? (fun p => p.id == "p1") = some scheduledPost ∧
    0 < (updateUserRateLimitApi 7 (none : Option RateLimitInfo)).1.remaining ∧
    (savePost updateUserRateLimitApi (some sampleUser) 7 "f1" omitDatePayload
      { posts := [scheduledPost], rl := none }).1 = .ok (some clearedPost) :=
  ⟨rfl, rfl, by decide,
    save_post_update_field_semantics sampleUser 7 "f1" omitDatePayload "p1"
      { posts := [scheduledPost], rl := none } scheduledPost rfl rfl (by decide)⟩

/-- C6 counterexample: the caught-failure error log is not capped — an
append onto a 100-entry error_logs list yields 101 entries. -/
theorem error_log_exceeds_cap_cex :
    (appendErrorLog (List.replicate 100 errEntry) errEntry).length = 101 := by
  simp [appendErrorLog]

/-- C6 (amended): the db-operations log (dbLogger.logOperation) never
exceeds 100 entries and at capacity evicts the oldest entry first, but the
caught-failure error log (apiErrorHandler) appends unboundedly: every
caught failure grows it by one with no eviction. -/
theorem db_log_capped_error_log_unbounded (logs : List DbLogEntry)
    (entry : DbLogEntry) (errorLogs : List ErrorLogEntry) (e : ErrorLogEntry)
    (hlen : logs.length ≤ 100) :
    (logOperation logs entry).length ≤ 100 ∧
    (logs.length = 100 → logOperation logs entry = logs.tail ++ [entry]) ∧
    (appendErrorLog errorLogs e).length = errorLogs.length + 1 := by
  refine ⟨?_, ?_, by simp [appendErrorLog]⟩
  · by_cases h : (logs ++ [entry]).length > 100
    · simp only [logOperation, if_pos h, List.length_tail]
      simp at h ⊢
      omega
    · simp only [logOperation, if_neg h]
      simp at h ⊢
      omega
  · intro h100
    have hgt : (logs ++ [entry]).length > 100 := by simp [h100]
    have hne : logs ≠ [] := by
      intro hnil
      rw [hnil] at h100
      simp at h100
    simp only [logOperation, if_pos hgt]
    exact List.tail_append_singleton_of_ne_nil hne

/-- C6 witness: a full 100-entry db log stays at 100 with the head evicted,
and a fresh error log grows to 1. -/
theorem db_log_capped_error_log_unbounded_witness :
    (List.replicate 100 dbEntry).length ≤ 100 ∧
    ((logOperation (List.replicate 100 dbEntry) dbEntry).length ≤ 100 ∧
      ((List.replicate 100 dbEntry).length = 100 →
        logOperation (List.replicate 100 dbEntry) dbEntry =
          (List.replicate 100 dbEntry).tail ++ [dbEntry]) ∧
      (appendErrorLog ([] : List ErrorLogEntry) errEntry).length =
        ([] : List ErrorLogEntry).length + 1) :=
  ⟨by simp,
    db_log_capped_error_log_unbounded (List.replicate 100 dbEntry) dbEntry
      ([] : List ErrorLogEntry) errEntry (by simp)⟩

end ContentForge
